import Mathlib

/-!
Verification of the RippleReach outreach core: the lead state machine
(`app.should_process_lead` and the dispatch chain in `app.send_emails`),
the delivery engine (`resend_integration.send_round_robin_email` with its
round-robin sender pool), and the reply monitor
(`email_monitor.EmailMonitor`).

Conventions of the embedding:
* Sheet cells are strings; a missing cell is the empty string (Python's
  `dict.get` returning `None` and the empty string are both falsy, and the
  source only tests these fields for truthiness or equality with non-empty
  literals, so the identification is faithful).
* Python exceptions are modelled with `Except`; a `try/except` block that
  converts an exception into a returned value becomes a `match` on the
  `Except`.
* Wall-clock timestamps are threaded through as explicit string/number
  parameters.
-/

namespace RippleReach

/-- Values of `constants.EmailStatus`. -/
def statusNew : String := "New"

/-- `constants.EmailStatus.SENT`. -/
def statusSent : String := "Sent"

/-- `constants.EmailStatus.REPLIED`. -/
def statusReplied : String := "Replied"

/-- `constants.EmailStatus.ACTIVE`. -/
def statusActive : String := "Active"

/-- `constants.EmailStatus.FAILED`. -/
def statusFailed : String := "Failed"

/-- `constants.SenderType.AGENCY`. -/
def senderAgency : String := "Agency"

/-- `constants.SenderType.CLIENT`. -/
def senderClient : String := "Client"

/-- The sheet-backed lead record, restricted to the columns the core
reads or writes (`constants.SheetColumns`).  A missing cell is `""`. -/
structure Lead where
  email : String
  email_status : String
  last_message : String
  last_sender : String
  conversation_history : String
  sender_email : String
  response : String
  deriving Repr, DecidableEq

/-- `app.should_process_lead` (src/app.py lines 21-44): returns the
(process?, reason) pair by the source's cascade of `if` tests. -/
def should_process_lead (lead : Lead) : Bool × String :=
  if lead.email_status = "" ∨ lead.email_status = statusNew then
    (true, "New lead needs cold email")
  else if lead.email_status = statusReplied then
    (true, "Need to respond to client reply")
  else if lead.email_status = statusSent ∧ lead.last_message = "" then
    (false, "Waiting for client response")
  else if lead.email_status = statusFailed then
    (true, "Retrying failed email")
  else
    (false, "No action needed. Status: " ++ lead.email_status)

/-- The action the orchestrator takes for one lead, in the vocabulary of
spec §4.1: `none` covers both "skipped by `should_process_lead`" and
"no matching dispatch branch". -/
inductive Action where
  | none
  | sendFirstTouch
  | sendReply
  | retrySend
  deriving Repr, DecidableEq

/-- The per-lead decision of the code: `should_process_lead` gating the
dispatch chain of `app.send_emails` (src/app.py lines 65-89).  A lead
that `should_process_lead` rejects is skipped; otherwise the branch chain
picks first-touch (status empty or New), reply (status Sent with a
last message, or status Replied), or retry (status Failed); a processed
lead that matches no branch yields no action. -/
def decideAction (lead : Lead) : Action :=
  if (should_process_lead lead).1 = false then Action.none
  else if lead.email_status = "" ∨ lead.email_status = statusNew then
    Action.sendFirstTouch
  else if (lead.email_status = statusSent ∧ lead.last_message ≠ "") ∨
      lead.email_status = statusReplied then
    Action.sendReply
  else if lead.email_status = statusFailed then
    Action.retrySend
  else Action.none

/-- Modelled from the spec: the §4.1 decision table, rules 1-6 in priority
order, used as the reference against which `decide` is compared. -/
def specDecide (lead : Lead) : Action :=
  if lead.email_status = "" ∨ lead.email_status = statusNew then
    Action.sendFirstTouch
  else if lead.email_status = statusReplied then
    Action.sendReply
  else if lead.email_status = statusSent ∧ lead.last_message ≠ "" then
    Action.sendReply
  else if lead.email_status = statusSent ∧ lead.last_message = "" then
    Action.none
  else if lead.email_status = statusFailed then
    Action.retrySend
  else Action.none

/-- A lead record with the given status and last message and all other
cells empty; the two fields are the only ones the decision logic reads. -/
def mkLead (st msg : String) : Lead :=
  { email := "", email_status := st, last_message := msg,
    last_sender := "", conversation_history := "", sender_email := "",
    response := "" }

example : decideAction (mkLead statusSent "Tell me about pricing") = Action.none := by decide
example : specDecide (mkLead statusSent "Tell me about pricing") = Action.sendReply := by decide
example : should_process_lead (mkLead statusSent "hi") =
    (false, "No action needed. Status: Sent") := by decide

/-- Result of one processed lead, the `{"status": ..., "type": ...}` dict
returned by `process_new_lead` / `process_client_reply`. -/
structure ProcessResult where
  status : String
  type : String
  deriving Repr, DecidableEq

/-- One entry of the `processing_results` list built by `app.send_emails`
(src/app.py lines 69-110). -/
inductive PassEntry where
  | processed (row : Nat) (result : ProcessResult)
  | skipped (row : Nat) (reason : String)
  | errored (row : Nat) (error : String)
  deriving Repr, DecidableEq

/-- `app.process_failed_email` (src/app.py lines 297-300): the body is the
single statement `pass` under the comment "Implement retry logic here",
so the function returns Python `None` for every input. -/
def process_failed_email (_lead : Lead) (_index : Nat) : Option ProcessResult :=
  Option.none

/-- The per-lead body of the loop in `app.send_emails` (src/app.py lines
64-110).  `processNew` and `processReply` stand for `process_new_lead` and
`process_client_reply`, which call external collaborators (content
generation, delivery, record store); an `Except.error` models a raised
exception, caught by the per-lead `except` clause and recorded as an
error entry.  A lead rejected by `should_process_lead` is skipped with
the returned reason; a dispatch that produced `None` (Python falsy
`result`) is recorded as skipped with "No matching action found". -/
def send_emails_step (processNew processReply : Lead → Nat → Except String (Option ProcessResult))
    (index : Nat) (lead : Lead) : PassEntry :=
  match should_process_lead lead with
  | (false, reason) => PassEntry.skipped index reason
  | (true, _) =>
    let attempt : Except String (Option ProcessResult) :=
      if lead.email_status = "" ∨ lead.email_status = statusNew then
        processNew lead index
      else if (lead.email_status = statusSent ∧ lead.last_message ≠ "") ∨
          lead.email_status = statusReplied then
        processReply lead index
      else if lead.email_status = statusFailed then
        Except.ok (process_failed_email lead index)
      else Except.ok Option.none
    match attempt with
    | Except.error e => PassEntry.errored index e
    | Except.ok (some r) => PassEntry.processed index r
    | Except.ok Option.none => PassEntry.skipped index "No matching action found"

/-- The loop of `app.send_emails` over all leads (src/app.py line 63):
rows are numbered from `startRow` (`Config.STARTING_ROW`), one result
entry per lead; a per-lead exception never aborts the remaining leads. -/
def send_emails_pass (processNew processReply : Lead → Nat → Except String (Option ProcessResult))
    (startRow : Nat) (leads : List Lead) : List PassEntry :=
  (List.enumFrom startRow leads).map (fun p => send_emails_step processNew processReply p.1 p.2)

/-- C1: the claim that `decide` realises the §4.1 table on all 10
(status, last-message-presence) combinations fails at exactly one cell:
a lead with status `Sent` and a non-empty `last_message` falls through
`should_process_lead` to the default "No action needed" case and is
skipped, while the table (rule 3) requires `SendReply`; on every other
combination the code agrees with the table. -/
theorem c1_sent_with_message_skipped_not_replied :
    (∀ lead : Lead,
      decideAction lead = if lead.email_status = statusSent ∧ lead.last_message ≠ "" then
        Action.none else specDecide lead) ∧
    decideAction (mkLead statusSent "Tell me about pricing") = Action.none ∧
    specDecide (mkLead statusSent "Tell me about pricing") = Action.sendReply ∧
    should_process_lead (mkLead statusSent "Tell me about pricing") =
      (false, "No action needed. Status: Sent") := by
  refine ⟨fun lead => ?_, by decide, by decide, by decide⟩
  unfold decideAction specDecide should_process_lead
  split_ifs <;> simp_all [statusNew, statusSent, statusReplied, statusFailed]

/-- C2: a lead with status `Failed` passes the `should_process_lead`
gate ("Retrying failed email") and reaches the retry branch of
`send_emails`, but `process_failed_email` is an unimplemented stub
returning `None`, so the pass records the lead as skipped with
"No matching action found" — never a send outcome — for every choice of
the other collaborators and of the lead's remaining fields. -/
theorem c2_failed_lead_recorded_as_skip :
    (∀ processNew processReply idx em lm ls ch se rp,
      send_emails_step processNew processReply idx
        ⟨em, statusFailed, lm, ls, ch, se, rp⟩ =
        PassEntry.skipped idx "No matching action found") ∧
    decideAction (mkLead statusFailed "") = Action.retrySend ∧
    (should_process_lead (mkLead statusFailed "")).2 = "Retrying failed email" := by
  refine ⟨fun processNew processReply idx em lm ls ch se rp => ?_, by decide, by decide⟩
  unfold send_emails_step should_process_lead process_failed_email
  split_ifs <;> simp_all [statusNew, statusSent, statusReplied, statusFailed]

/-- One sender identity of `Config.SENDER_CONFIGS`; a missing dict key is
the empty string (the source tests `field in config and config[field]`,
and a missing key and an empty value are rejected alike). -/
structure SenderConfig where
  email : String
  api_key : String
  display_name : String
  deriving Repr, DecidableEq

/-- The default returned by out-of-range indexing in the embedding; the
source maintains the cursor inside the pool, so it is never reached
under the stated hypotheses. -/
def defaultSenderConfig : SenderConfig := ⟨"", "", ""⟩

/-- `EmailSender.validate_sender_config` (src/resend_integration.py lines
23-27): every required field present and truthy. -/
def validate_sender_config (c : SenderConfig) : Bool :=
  c.email != "" && c.api_key != "" && c.display_name != ""

/-- `EmailSender.get_next_sender_config` (src/resend_integration.py lines
29-47).  State passing: `cursor` is `EmailSender._current_index`; the
returned `Nat` is the cursor after the call.  A raised `ValueError` is an
`Except.error`; note the cursor is incremented only after validation
succeeds, so a failure leaves it unchanged. -/
def get_next_sender_config (pool : List SenderConfig) (cursor : Nat) :
    Except String (SenderConfig × Nat) :=
  if pool.isEmpty then Except.error "No sender configurations available"
  else if validate_sender_config (pool.getD cursor defaultSenderConfig) = false then
    Except.error "Invalid sender configuration"
  else
    Except.ok (pool.getD cursor defaultSenderConfig, (cursor + 1) % pool.length)

/-- Drop the characters satisfying `p` from both ends of a list: the
semantics of Python `str.strip(chars)`. -/
def stripList (p : Char → Bool) (l : List Char) : List Char :=
  ((l.dropWhile p).reverse.dropWhile p).reverse

/-- Python `str.strip()`: whitespace removed from both ends. -/
def pyStrip (s : String) : String :=
  String.mk (stripList (fun c => c.isWhitespace) s.data)

/-- Python `c in s` for a single character. -/
def pyContains (s : String) (c : Char) : Bool :=
  s.data.contains c

/-- `validate_email_content` (src/resend_integration.py lines 49-58). -/
def validate_email_content (to_email subject html_content : String) :
    Except String Unit :=
  if to_email = "" ∨ ¬ pyContains to_email '@' = true then
    Except.error ("Invalid recipient email: " ++ to_email)
  else if subject = "" ∨ (pyStrip subject).length < 2 then
    Except.error ("Invalid subject line: " ++ subject)
  else if html_content = "" ∨ (pyStrip html_content).length < 10 then
    Except.error "Invalid email content length"
  else Except.ok ()

/-- A character stripped by Python `.strip('"\'')`: the double or single
quote (the latter written by code point to keep the source plain). -/
def isQuoteChar (c : Char) : Bool := c = '"' || c = Char.ofNat 39

/-- `subject.strip().strip('"\'').strip()` from
src/resend_integration.py line 75. -/
def clean_subject_of (subject : String) : String :=
  pyStrip (String.mk (stripList isQuoteChar (pyStrip subject).data))

/-- The JSON body posted to the provider (src/resend_integration.py lines
80-86), minus the attachment list, which no claim observes. -/
structure EmailData where
  from_email : String
  to_email : String
  subject : String
  html : String
  deriving Repr, DecidableEq

/-- The provider's HTTP response as the source observes it: the status
code (Python `response.ok` is `status_code < 400`), the body text, and
whether the parsed JSON carries an `id` key. -/
structure HttpResponse where
  status_code : Nat
  text : String
  idVal : Option String
  deriving Repr, DecidableEq

/-- An exception raised by `requests.post` (timeout, connection error):
its Python type name and message, as read by the `except` clause. -/
structure TransportExc where
  excType : String
  excMsg : String
  deriving Repr, DecidableEq

/-- The dict returned by `send_round_robin_email`: either the success
record (lines 127-138) or the error record built in the `except` clause
(lines 143-158).  `from_email` is `"unknown"` when the exception fired
before the identity was chosen, and `subject` is the raw subject when it
fired before cleaning — exactly the `locals()` tests of lines 150-152. -/
inductive SendResult where
  | success (request_id email_id from_email to_email subject sent_at : String)
      (duration : Nat)
  | failed (request_id error_type error from_email to_email subject failed_at : String)
  deriving Repr, DecidableEq

/-- Observable outcome of one `send_round_robin_email` call: the returned
dict, the pool cursor after the call, and whether `requests.post` was
reached. -/
structure SendOutput where
  result : SendResult
  cursor : Nat
  networkCalled : Bool
  deriving Repr, DecidableEq

/-- `send_round_robin_email` (src/resend_integration.py lines 60-158).
`respond` models the provider: what `requests.post` returns for the data
it is given, with `Except.error` a raised transport exception.
`request_id`, `now` and `duration` thread the wall clock through as
parameters.  The `try/except` of the source catches every raised error
and converts it into a returned `failed` record, which is why the
embedding is total into `SendOutput`. -/
def send_round_robin_email (pool : List SenderConfig) (cursor : Nat)
    (respond : EmailData → Except TransportExc HttpResponse)
    (request_id now : String) (duration : Nat)
    (to_email subject html_content : String) : SendOutput :=
  match validate_email_content to_email subject html_content with
  | Except.error msg =>
    ⟨SendResult.failed request_id "ValueError" msg "unknown" to_email subject now,
      cursor, false⟩
  | Except.ok _ =>
    match get_next_sender_config pool cursor with
    | Except.error msg =>
      ⟨SendResult.failed request_id "ValueError" msg "unknown" to_email subject now,
        cursor, false⟩
    | Except.ok (cfg, cursor') =>
      let clean_subject := clean_subject_of subject
      let from_email := cfg.display_name ++ " <" ++ cfg.email ++ ">"
      match respond ⟨from_email, to_email, clean_subject, html_content⟩ with
      | Except.error exc =>
        ⟨SendResult.failed request_id exc.excType exc.excMsg from_email to_email
          clean_subject now, cursor', true⟩
      | Except.ok resp =>
        if 400 ≤ resp.status_code then
          ⟨SendResult.failed request_id "EmailDeliveryError"
            ("Email sending failed: Status " ++ toString resp.status_code ++ " - " ++ resp.text)
            from_email to_email clean_subject now, cursor', true⟩
        else
          match resp.idVal with
          | Option.none =>
            ⟨SendResult.failed request_id "EmailDeliveryError"
              "Missing email ID in successful response"
              from_email to_email clean_subject now, cursor', true⟩
          | some mid =>
            ⟨SendResult.success request_id mid from_email to_email clean_subject now
              duration, cursor', true⟩

/-- Content validation succeeds exactly when the recipient contains `@`,
the stripped subject has at least 2 characters, and the stripped body has
at least 10 (the source's extra emptiness tests are subsumed: an empty
string contains no `@` and strips to length 0). -/
lemma validate_email_content_ok_iff (t s h : String) :
    validate_email_content t s h = Except.ok () ↔
      (pyContains t '@' = true ∧ 2 ≤ (pyStrip s).length ∧ 10 ≤ (pyStrip h).length) := by
  unfold validate_email_content
  constructor
  · intro hok
    split_ifs at hok with h1 h2 h3
    push_neg at h1 h2 h3
    refine ⟨by simpa using h1.2, by omega, by omega⟩
  · rintro ⟨hc, hs, hh⟩
    have ht : t ≠ "" := by
      intro heq; rw [heq] at hc; exact absurd hc (by decide)
    have hsne : s ≠ "" := by
      intro heq; rw [heq] at hs; exact absurd hs (by decide)
    have hhne : h ≠ "" := by
      intro heq; rw [heq] at hh; exact absurd hh (by decide)
    rw [if_neg (by push_neg; exact ⟨ht, by simp [hc]⟩),
      if_neg (by push_neg; exact ⟨hsne, by omega⟩),
      if_neg (by push_neg; exact ⟨hhne, by omega⟩)]

/-- A content-validation failure makes the engine return the `ValueError`
record with identity `"unknown"`, cursor untouched, network unreached. -/
lemma send_validation_failure_output (pool : List SenderConfig) (cursor : Nat)
    (respond : EmailData → Except TransportExc HttpResponse)
    (request_id now : String) (duration : Nat) (t s h : String)
    (hbad : ¬ pyContains t '@' = true ∨ (pyStrip s).length < 2 ∨ (pyStrip h).length < 10) :
    ∃ msg, send_round_robin_email pool cursor respond request_id now duration t s h =
      ⟨SendResult.failed request_id "ValueError" msg "unknown" t s now, cursor, false⟩ := by
  have hne : validate_email_content t s h ≠ Except.ok () := by
    intro hok
    rw [validate_email_content_ok_iff] at hok
    obtain ⟨h1, h2, h3⟩ := hok
    rcases hbad with hb | hb | hb
    · exact hb h1
    · omega
    · omega
  obtain ⟨msg, hmsg⟩ : ∃ msg, validate_email_content t s h = Except.error msg := by
    cases hv : validate_email_content t s h with
    | error m => exact ⟨m, rfl⟩
    | ok u => cases u; exact absurd hv hne
  refine ⟨msg, ?_⟩
  unfold send_round_robin_email
  rw [hmsg]

/-- An empty pool or an invalid identity at the cursor makes the engine
return the configuration `ValueError` record, cursor untouched, network
unreached, whenever the content itself validates. -/
lemma send_config_failure_output (pool : List SenderConfig) (cursor : Nat)
    (respond : EmailData → Except TransportExc HttpResponse)
    (request_id now : String) (duration : Nat) (t s h : String)
    (hok : validate_email_content t s h = Except.ok ())
    (hbad : pool = [] ∨ validate_sender_config (pool.getD cursor defaultSenderConfig) = false) :
    ∃ msg, send_round_robin_email pool cursor respond request_id now duration t s h =
      ⟨SendResult.failed request_id "ValueError" msg "unknown" t s now, cursor, false⟩ := by
  obtain ⟨msg, hmsg⟩ : ∃ msg, get_next_sender_config pool cursor = Except.error msg := by
    unfold get_next_sender_config
    rcases hbad with hb | hb
    · rw [if_pos (by simp [hb])]
      exact ⟨_, rfl⟩
    · rcases hp : pool.isEmpty with _ | _
      · rw [if_neg (by simp [hp]), if_pos hb]
        exact ⟨_, rfl⟩
      · rw [if_pos (by simp [hp])]
        exact ⟨_, rfl⟩
  refine ⟨msg, ?_⟩
  unfold send_round_robin_email
  rw [hok, hmsg]

/-- C7: an input violating any of the three content preconditions makes
`send_round_robin_email` return a `ValueError` failure with the identity
still `"unknown"`, the cursor untouched, and no network call — the
validation fires before identity selection and before the provider is
contacted; and inputs meeting all three preconditions pass
`validate_email_content`. -/
theorem c7_validation_before_selection_and_network :
    (∀ (pool : List SenderConfig) (cursor : Nat)
        (respond : EmailData → Except TransportExc HttpResponse)
        (request_id now : String) (duration : Nat) (t s h : String),
      (¬ pyContains t '@' = true ∨ (pyStrip s).length < 2 ∨ (pyStrip h).length < 10) →
      ∃ msg, send_round_robin_email pool cursor respond request_id now duration t s h =
        ⟨SendResult.failed request_id "ValueError" msg "unknown" t s now,
          cursor, false⟩) ∧
    (∀ t s h : String,
      pyContains t '@' = true → 2 ≤ (pyStrip s).length → 10 ≤ (pyStrip h).length →
      validate_email_content t s h = Except.ok ()) := by
  constructor
  · exact send_validation_failure_output
  · intro t s h hc hs hh
    rw [validate_email_content_ok_iff]
    exact ⟨hc, hs, hh⟩

/-- Witness for C7 at the spec's own example inputs. -/
theorem c7_witness :
    (∃ msg, send_round_robin_email [] 0 (fun _ => Except.error ⟨"Timeout", "t"⟩)
        "rid" "now" 0 "not-an-email" "ok subject" "0123456789" =
      ⟨SendResult.failed "rid" "ValueError" msg "unknown" "not-an-email"
        "ok subject" "now", 0, false⟩) ∧
    validate_email_content "a@b.com" "ok subject" "0123456789" = Except.ok () :=
  ⟨c7_validation_before_selection_and_network.1 [] 0
      (fun _ => Except.error ⟨"Timeout", "t"⟩) "rid" "now" 0
      "not-an-email" "ok subject" "0123456789" (Or.inl (by decide)),
    c7_validation_before_selection_and_network.2 "a@b.com" "ok subject" "0123456789"
      (by decide) (by decide) (by decide)⟩

/-- C4 (amended): with an empty pool, or an invalid identity at the
cursor, the engine fails before any network call with a `ValueError`
(configuration error) and does not retry — but the error is caught inside
`send_round_robin_email` and handed back as a structured failure record,
and the orchestrator pass records one entry per lead and keeps
dispatching: the pass never halts early. -/
theorem c4_config_error_returned_pass_continues :
    (∀ (pool : List SenderConfig) (cursor : Nat)
        (respond : EmailData → Except TransportExc HttpResponse)
        (request_id now : String) (duration : Nat) (t s h : String),
      validate_email_content t s h = Except.ok () →
      (pool = [] ∨ validate_sender_config (pool.getD cursor defaultSenderConfig) = false) →
      ∃ msg, send_round_robin_email pool cursor respond request_id now duration t s h =
        ⟨SendResult.failed request_id "ValueError" msg "unknown" t s now,
          cursor, false⟩) ∧
    (∀ processNew processReply startRow leads,
      (send_emails_pass processNew processReply startRow leads).length = leads.length) := by
  constructor
  · exact send_config_failure_output
  · intro processNew processReply startRow leads
    unfold send_emails_pass
    rw [List.length_map, List.enumFrom_length]

/-- Scenario collaborator for the C4 counterexample: the first-touch
handler routes the lead through the delivery engine with an empty sender
pool, as `process_new_lead` does via `send_round_robin_email`, and
reports the engine's outcome. -/
def c4ScenarioHandler : Lead → Nat → Except String (Option ProcessResult) :=
  fun lead _ =>
    match (send_round_robin_email [] 0 (fun _ => Except.error ⟨"Timeout", "timeout"⟩)
        "rid" "now" 0 lead.email "ok subject" "0123456789").result with
    | SendResult.failed _ et _ _ _ _ _ => Except.ok (some ⟨"failed", et⟩)
    | SendResult.success _ _ _ _ _ _ _ => Except.ok (some ⟨"success", "cold_email"⟩)

/-- Counterexample to C4 as stated: the configuration error on an empty
pool is not fatal to the pass — the engine returns it as a failure
record (no exception reaches the orchestrator), and a pass over two
leads whose sends both hit the empty-pool error still dispatches the
second lead and records two entries.  Dispatch does not halt. -/
theorem c4_counterexample_pass_not_halted :
    (send_round_robin_email [] 0 (fun _ => Except.error ⟨"Timeout", "timeout"⟩)
        "rid" "now" 0 "a@b.com" "ok subject" "0123456789") =
      ⟨SendResult.failed "rid" "ValueError" "No sender configurations available"
        "unknown" "a@b.com" "ok subject" "now", 0, false⟩ ∧
    send_emails_pass c4ScenarioHandler c4ScenarioHandler 2
        [{ mkLead "" "" with email := "a@b.com" },
         { mkLead "" "" with email := "c@d.com" }] =
      [PassEntry.processed 2 ⟨"failed", "ValueError"⟩,
       PassEntry.processed 3 ⟨"failed", "ValueError"⟩] := by
  constructor <;> rfl

/-- Witness for the amended C4. -/
theorem c4_witness :
    (∃ msg, send_round_robin_email [] 0 (fun _ => Except.error ⟨"Timeout", "t"⟩)
        "rid" "now" 0 "a@b.com" "ok subject" "0123456789" =
      ⟨SendResult.failed "rid" "ValueError" msg "unknown" "a@b.com"
        "ok subject" "now", 0, false⟩) ∧
    (send_emails_pass (fun _ _ => Except.ok Option.none) (fun _ _ => Except.ok Option.none) 2
        [mkLead statusSent "", mkLead statusFailed ""]).length = 2 :=
  ⟨c4_config_error_returned_pass_continues.1 [] 0
      (fun _ => Except.error ⟨"Timeout", "t"⟩) "rid" "now" 0
      "a@b.com" "ok subject" "0123456789" rfl (Or.inl rfl),
    c4_config_error_returned_pass_continues.2 _ _ 2 _⟩

/-- C9: `send_round_robin_email` is total into a structured result — the
catch-all `except` of the source converts every raised error into a
returned record — and every outcome is exactly one of: a failure record
carrying the error type, the message, the attempted recipient and the
attempted subject (raw before cleaning, cleaned after), or a success
record carrying the identity used, the provider message id, the
timestamp, and the duration, with the cursor advanced by the selection. -/
theorem c9_send_always_returns_structured_result :
    ∀ (pool : List SenderConfig) (cursor : Nat)
      (respond : EmailData → Except TransportExc HttpResponse)
      (request_id now : String) (duration : Nat) (t s h : String),
    (∃ error_type msg from_email subj cursor' nc,
      send_round_robin_email pool cursor respond request_id now duration t s h =
        ⟨SendResult.failed request_id error_type msg from_email t subj now, cursor', nc⟩ ∧
      (subj = s ∨ subj = clean_subject_of s)) ∨
    (∃ cfg cursor' mid,
      get_next_sender_config pool cursor = Except.ok (cfg, cursor') ∧
      send_round_robin_email pool cursor respond request_id now duration t s h =
        ⟨SendResult.success request_id mid (cfg.display_name ++ " <" ++ cfg.email ++ ">")
          t (clean_subject_of s) now duration, cursor', true⟩) := by
  intro pool cursor respond request_id now duration t s h
  cases hv : validate_email_content t s h with
  | error m =>
    refine Or.inl ⟨"ValueError", m, "unknown", s, cursor, false, ?_, Or.inl rfl⟩
    simp only [send_round_robin_email, hv]
  | ok u =>
    cases u
    cases hg : get_next_sender_config pool cursor with
    | error m =>
      refine Or.inl ⟨"ValueError", m, "unknown", s, cursor, false, ?_, Or.inl rfl⟩
      simp only [send_round_robin_email, hv, hg]
    | ok p =>
      obtain ⟨cfg, cur'⟩ := p
      cases hr : respond ⟨cfg.display_name ++ " <" ++ cfg.email ++ ">", t,
          clean_subject_of s, h⟩ with
      | error exc =>
        refine Or.inl ⟨exc.excType, exc.excMsg, cfg.display_name ++ " <" ++ cfg.email ++ ">",
          clean_subject_of s, cur', true, ?_, Or.inr rfl⟩
        simp only [send_round_robin_email, hv, hg, hr]
      | ok resp =>
        by_cases hcode : 400 ≤ resp.status_code
        · refine Or.inl ⟨"EmailDeliveryError",
            "Email sending failed: Status " ++ toString resp.status_code ++ " - " ++ resp.text,
            cfg.display_name ++ " <" ++ cfg.email ++ ">",
            clean_subject_of s, cur', true, ?_, Or.inr rfl⟩
          simp only [send_round_robin_email, hv, hg, hr, if_pos hcode]
        · cases hid : resp.idVal with
          | none =>
            refine Or.inl ⟨"EmailDeliveryError", "Missing email ID in successful response",
              cfg.display_name ++ " <" ++ cfg.email ++ ">",
              clean_subject_of s, cur', true, ?_, Or.inr rfl⟩
            simp only [send_round_robin_email, hv, hg, hr, if_neg hcode, hid]
          | some mid =>
            refine Or.inr ⟨cfg, cur', mid, rfl, ?_⟩
            simp only [send_round_robin_email, hv, hg, hr, if_neg hcode, hid]

/-- C10: a call rejected by content validation leaves the shared cursor
unchanged and contacts nothing, so the rotation slot is not consumed;
and when the identity at the cursor is invalid, the cursor is likewise
not advanced, so every subsequent call — any content, any provider —
selects the same invalid identity and fails the same way. -/
theorem c10_failed_calls_do_not_advance_cursor :
    (∀ (pool : List SenderConfig) (cursor : Nat)
        (respond : EmailData → Except TransportExc HttpResponse)
        (request_id now : String) (duration : Nat) (t s h : String),
      (¬ pyContains t '@' = true ∨ (pyStrip s).length < 2 ∨ (pyStrip h).length < 10) →
      (send_round_robin_email pool cursor respond request_id now duration t s h).cursor =
          cursor ∧
      (send_round_robin_email pool cursor respond request_id now duration t s h).networkCalled =
          false) ∧
    (∀ (pool : List SenderConfig) (cursor : Nat)
        (respond respond' : EmailData → Except TransportExc HttpResponse)
        (request_id now request_id' now' : String) (duration duration' : Nat)
        (t s h t' s' h' : String),
      validate_email_content t s h = Except.ok () →
      validate_email_content t' s' h' = Except.ok () →
      validate_sender_config (pool.getD cursor defaultSenderConfig) = false →
      (send_round_robin_email pool cursor respond request_id now duration t s h).cursor =
          cursor ∧
      ∃ msg, send_round_robin_email pool cursor respond' request_id' now' duration' t' s' h' =
        ⟨SendResult.failed request_id' "ValueError" msg "unknown" t' s' now',
          cursor, false⟩) := by
  constructor
  · intro pool cursor respond request_id now duration t s h hbad
    obtain ⟨msg, hmsg⟩ := send_validation_failure_output pool cursor respond
      request_id now duration t s h hbad
    rw [hmsg]
    exact ⟨rfl, rfl⟩
  · intro pool cursor respond respond' request_id now request_id' now' duration duration'
      t s h t' s' h' hok hok' hcfg
    constructor
    · obtain ⟨msg, hmsg⟩ := send_config_failure_output pool cursor respond
        request_id now duration t s h hok (Or.inr hcfg)
      rw [hmsg]
    · exact send_config_failure_output pool cursor respond'
        request_id' now' duration' t' s' h' hok' (Or.inr hcfg)

/-- Witness for C10: a bad-recipient call with a one-identity pool keeps
the cursor at 0, and with an invalid (blank-credential) identity two
successive valid-content calls both fail without moving the cursor. -/
theorem c10_witness :
    ((send_round_robin_email [⟨"a@x.com", "key", "A"⟩] 0
        (fun _ => Except.error ⟨"Timeout", "t"⟩) "rid" "now" 0
        "not-an-email" "ok subject" "0123456789").cursor = 0 ∧
      (send_round_robin_email [⟨"a@x.com", "key", "A"⟩] 0
        (fun _ => Except.error ⟨"Timeout", "t"⟩) "rid" "now" 0
        "not-an-email" "ok subject" "0123456789").networkCalled = false) ∧
    ((send_round_robin_email [⟨"a@x.com", "", "A"⟩] 0
        (fun _ => Except.error ⟨"Timeout", "t"⟩) "rid" "now" 0
        "a@b.com" "ok subject" "0123456789").cursor = 0 ∧
      ∃ msg, send_round_robin_email [⟨"a@x.com", "", "A"⟩] 0
          (fun _ => Except.error ⟨"Timeout", "t"⟩) "rid2" "now2" 0
          "c@d.com" "ok subject two" "0123456789" =
        ⟨SendResult.failed "rid2" "ValueError" msg "unknown" "c@d.com"
          "ok subject two" "now2", 0, false⟩) :=
  ⟨c10_failed_calls_do_not_advance_cursor.1 [⟨"a@x.com", "key", "A"⟩] 0
      (fun _ => Except.error ⟨"Timeout", "t"⟩) "rid" "now" 0
      "not-an-email" "ok subject" "0123456789" (Or.inl (by decide)),
    c10_failed_calls_do_not_advance_cursor.2 [⟨"a@x.com", "", "A"⟩] 0
      (fun _ => Except.error ⟨"Timeout", "t"⟩) (fun _ => Except.error ⟨"Timeout", "t"⟩)
      "rid" "now" "rid2" "now2" 0 0
      "a@b.com" "ok subject" "0123456789" "c@d.com" "ok subject two" "0123456789"
      rfl rfl (by decide)⟩

/-- N successive calls to `EmailSender.get_next_sender_config`, threading
the shared class-level cursor; a failed call leaves the cursor where it
was (the increment at src/resend_integration.py line 46 runs only after
validation). -/
def iterate_next_sender (pool : List SenderConfig) :
    Nat → Nat → List (Except String SenderConfig) × Nat
  | cursor, 0 => ([], cursor)
  | cursor, Nat.succ n =>
    match get_next_sender_config pool cursor with
    | Except.ok (cfg, c') =>
      let rest := iterate_next_sender pool c' n
      (Except.ok cfg :: rest.1, rest.2)
    | Except.error e =>
      let rest := iterate_next_sender pool cursor n
      (Except.error e :: rest.1, rest.2)

/-- With a non-empty all-valid pool and an in-range cursor, one call
selects the identity at the cursor and advances the cursor by one modulo
the pool size. -/
lemma get_next_sender_config_ok (pool : List SenderConfig)
    (hvalid : ∀ c ∈ pool, validate_sender_config c = true) (hne : pool ≠ [])
    (cursor : Nat) (hc : cursor < pool.length) :
    get_next_sender_config pool cursor =
      Except.ok (pool.getD cursor defaultSenderConfig, (cursor + 1) % pool.length) := by
  have hmem : pool.getD cursor defaultSenderConfig ∈ pool := by
    rw [List.getD_eq_getElem?_getD, List.getElem?_eq_getElem hc]
    exact List.getElem_mem hc
  have hval : validate_sender_config (pool.getD cursor defaultSenderConfig) = true :=
    hvalid _ hmem
  unfold get_next_sender_config
  rw [if_neg (by simp [List.isEmpty_iff, hne]), if_neg (by rw [hval]; decide)]

/-- The selection sequence of N successive calls from an in-range cursor:
the n-th call returns the identity at index `(cursor + n) % K`, and the
final cursor is `(cursor + N) % K`. -/
lemma iterate_next_sender_spec (pool : List SenderConfig)
    (hvalid : ∀ c ∈ pool, validate_sender_config c = true) (hne : pool ≠ []) :
    ∀ (N cursor : Nat), cursor < pool.length →
      iterate_next_sender pool cursor N =
        ((List.range N).map (fun n =>
            Except.ok (pool.getD ((cursor + n) % pool.length) defaultSenderConfig)),
          (cursor + N) % pool.length) := by
  intro N
  induction N with
  | zero =>
    intro cursor hc
    simp [iterate_next_sender, Nat.mod_eq_of_lt hc]
  | succ n ih =>
    intro cursor hc
    have hL : 0 < pool.length := List.length_pos.mpr hne
    have hstep := get_next_sender_config_ok pool hvalid hne cursor hc
    have hc' : (cursor + 1) % pool.length < pool.length := Nat.mod_lt _ hL
    have hrec := ih ((cursor + 1) % pool.length) hc'
    simp only [iterate_next_sender, hstep, hrec]
    congr 1
    · rw [List.range_succ_eq_map, List.map_cons, List.map_map]
      congr 1
      · rw [Nat.add_zero, Nat.mod_eq_of_lt hc]
      · refine List.map_congr_left ?_
        intro m _
        simp only [Function.comp_apply]
        rw [Nat.mod_add_mod]
        have heq : cursor + 1 + m = cursor + Nat.succ m := by omega
        rw [heq]
    · rw [Nat.mod_add_mod]
      have heq : cursor + 1 + n = cursor + Nat.succ n := by omega
      rw [heq]

/-- Among N consecutive values of the rotating index starting at cursor
`c`, each residue `i < K` occurs either `⌊N/K⌋` or `⌊N/K⌋ + 1` times. -/
lemma residue_filter_count (K N c i : Nat) (hK : 0 < K) (hc : c < K) (hi : i < K) :
    N / K ≤ ((List.range N).filter (fun n => decide ((c + n) % K = i))).length ∧
    ((List.range N).filter (fun n => decide ((c + n) % K = i))).length ≤ N / K + 1 := by
  have hpred : ∀ n, ((c + n) % K = i) ↔ n ≡ (i + K - c) [MOD K] := by
    intro n
    constructor
    · intro hm
      have h1 : c + n ≡ c + (i + K - c) [MOD K] := by
        unfold Nat.ModEq
        rw [hm]
        have hsum : c + (i + K - c) = i + K := by omega
        rw [hsum, Nat.add_mod_right, Nat.mod_eq_of_lt hi]
      exact Nat.ModEq.add_left_cancel' c h1
    · intro hm
      have h1 : c + n ≡ c + (i + K - c) [MOD K] := Nat.ModEq.add_left c hm
      unfold Nat.ModEq at h1
      have hsum : c + (i + K - c) = i + K := by omega
      rw [hsum, Nat.add_mod_right, Nat.mod_eq_of_lt hi] at h1
      exact h1
  have hcount : ((List.range N).filter (fun n => decide ((c + n) % K = i))).length =
      Nat.count (fun n => n ≡ (i + K - c) [MOD K]) N := by
    rw [Nat.count, ← List.countP_eq_length_filter]
    apply List.countP_congr
    intro a _
    simp only [decide_eq_true_eq]
    exact hpred a
  rw [hcount, Nat.count_modEq_card N hK (i + K - c)]
  constructor
  · split_ifs <;> omega
  · split_ifs <;> omega

/-- C6: over a non-empty pool of K valid identities and any in-range
cursor, each call selects the identity at the cursor and advances the
shared cursor by exactly one modulo K; N successive calls select, in
rotating order, the identities at indices `(cursor + n) % K` for
`n = 0, …, N-1`; and each index is selected `⌊N/K⌋` or `⌊N/K⌋ + 1`
times. -/
theorem c6_round_robin_rotation :
    ∀ (pool : List SenderConfig) (cursor N : Nat),
      (∀ c ∈ pool, validate_sender_config c = true) → pool ≠ [] →
      cursor < pool.length →
      get_next_sender_config pool cursor =
        Except.ok (pool.getD cursor defaultSenderConfig, (cursor + 1) % pool.length) ∧
      iterate_next_sender pool cursor N =
        ((List.range N).map (fun n =>
            Except.ok (pool.getD ((cursor + n) % pool.length) defaultSenderConfig)),
          (cursor + N) % pool.length) ∧
      (∀ i, i < pool.length →
        N / pool.length ≤
          ((List.range N).filter (fun n => decide ((cursor + n) % pool.length = i))).length ∧
        ((List.range N).filter (fun n => decide ((cursor + n) % pool.length = i))).length ≤
          N / pool.length + 1) := by
  intro pool cursor N hvalid hne hc
  have hL : 0 < pool.length := List.length_pos.mpr hne
  refine ⟨get_next_sender_config_ok pool hvalid hne cursor hc,
    iterate_next_sender_spec pool hvalid hne N cursor hc, ?_⟩
  intro i hi
  exact residue_filter_count pool.length N cursor i hL hc hi

/-- A three-identity pool for the C6 witness. -/
def c6Pool : List SenderConfig :=
  [⟨"a@x.com", "k1", "A"⟩, ⟨"b@x.com", "k2", "B"⟩, ⟨"c@x.com", "k3", "C"⟩]

/-- Witness for C6: pool of three valid identities, seven calls. -/
theorem c6_witness :
    get_next_sender_config c6Pool 0 = Except.ok (⟨"a@x.com", "k1", "A"⟩, 1) ∧
    7 / c6Pool.length ≤
      ((List.range 7).filter (fun n => decide ((0 + n) % c6Pool.length = 1))).length ∧
    ((List.range 7).filter (fun n => decide ((0 + n) % c6Pool.length = 1))).length ≤
      7 / c6Pool.length + 1 := by
  obtain ⟨h1, _h2, h3⟩ := c6_round_robin_rotation c6Pool 0 7 (by decide) (by decide) (by decide)
  exact ⟨h1, (h3 1 (by decide)).1, (h3 1 (by decide)).2⟩

/-- Python `str.lower()`. -/
def pyLower (s : String) : String :=
  String.mk (s.data.map Char.toLower)

/-- Python `a.isPrefixOf`-style check over the underlying characters,
rendered executable (the kernel reduces list operations). -/
def strIsPrefixOf (a b : String) : Bool :=
  a.data.isPrefixOf b.data

/-- Split a character list at every occurrence of `c`: the semantics of
Python `str.splitlines()` for newline-separated text. -/
def splitOnChar (c : Char) : List Char → List (List Char)
  | [] => [[]]
  | x :: xs =>
    let rest := splitOnChar c xs
    if x = c then [] :: rest
    else
      match rest with
      | [] => [[x]]
      | r :: rs => (x :: r) :: rs

/-- The whitespace cleanup ending `EmailMonitor._convert_html_to_text`
(src/email_monitor.py lines 169-171): every line stripped, blank lines
dropped, the rest rejoined with newlines. -/
def cleanupLines (s : String) : String :=
  String.mk (List.intercalate ['\n']
    (((splitOnChar '\n' s.data).map
        (stripList (fun c => c.isWhitespace))).filter (fun l => !l.isEmpty)))

/-- `EmailMonitor._convert_html_to_text` (src/email_monitor.py lines
154-176).  `handle` models the external `html2text` markdown rendering
(`h.handle(str(soup))`); the source then applies the line cleanup
unconditionally.  The cleanup alone — repository code — already
reformats its input, whatever `handle` does. -/
def convert_html_to_text (handle : String → String) (s : String) : String :=
  cleanupLines (handle s)

/-- The update `EmailMonitor._update_lead_in_sheet` applies to the
matched lead (src/email_monitor.py lines 189-214): status `Sent` becomes
`Replied` and every other status is written back unchanged; the reply is
converted to text and stored as `last_message`; the sender becomes
`Client`; a timestamped entry is appended to the conversation history,
whose previous value is itself first passed through
`_convert_html_to_text` when non-empty. -/
def update_lead_payload (handle : String → String) (ts reply_body : String)
    (lead : Lead) : Lead :=
  let new_status :=
    if lead.email_status = statusSent then statusReplied else lead.email_status
  let clean_reply := convert_html_to_text handle reply_body
  let existing_history :=
    if lead.conversation_history ≠ "" then
      convert_html_to_text handle lead.conversation_history
    else lead.conversation_history
  let new_entry := "\n\nClient Reply (" ++ ts ++ "):\n" ++ clean_reply
  let updated_history :=
    if existing_history ≠ "" then existing_history ++ new_entry else new_entry
  { lead with
    last_message := clean_reply,
    last_sender := senderClient,
    email_status := new_status,
    conversation_history := updated_history }

/-- The scan of `_update_lead_in_sheet` over the store (src/email_monitor.py
lines 183-225): the first lead whose email matches case-insensitively
receives the payload and the scan returns. -/
def update_lead_in_sheet (handle : String → String) (ts from_email reply_body : String) :
    List Lead → List Lead
  | [] => []
  | lead :: rest =>
    if pyLower lead.email = pyLower from_email then
      update_lead_payload handle ts reply_body lead :: rest
    else lead :: update_lead_in_sheet handle ts from_email reply_body rest

/-- One inbound message as `_check_single_inbox` observes it: the
participant addresses from From/To/Cc, the thread key
(`Message-ID`/`Thread-Index`), and the sender and body of the most
recent message of its thread (the result of `_get_thread_messages`). -/
structure InboundMessage where
  participants : List String
  thread_id : String
  latest_from : String
  latest_body : String
  deriving Repr, DecidableEq

/-- The message loop of `_check_single_inbox` (src/email_monitor.py lines
58-89): per message, leads whose (lowercased) addresses intersect the
participants are matched; an unseen thread key is added to the
per-cycle dedup set; if the thread's latest sender is the matched lead,
the store is updated. -/
def check_inbox_go (handle : String → String) (ts : String) (lead_emails : List String) :
    List InboundMessage → List String → List Lead → List Lead
  | [], _, store => store
  | m :: rest, processed, store =>
    match m.participants.filter (fun p => lead_emails.contains (pyLower p)) with
    | [] => check_inbox_go handle ts lead_emails rest processed store
    | lead_email :: _ =>
      if processed.contains m.thread_id then
        check_inbox_go handle ts lead_emails rest processed store
      else
        if pyLower m.latest_from = pyLower lead_email then
          check_inbox_go handle ts lead_emails rest (m.thread_id :: processed)
            (update_lead_in_sheet handle ts lead_email m.latest_body store)
        else
          check_inbox_go handle ts lead_emails rest (m.thread_id :: processed) store

/-- One monitor cycle over one inbox (src/email_monitor.py lines 34-97):
the correlation set of lowercased lead addresses is computed once from
the store, messages are scanned newest first, and the per-cycle dedup
set starts empty. -/
def check_single_inbox (handle : String → String) (ts : String)
    (store : List Lead) (messages : List InboundMessage) : List Lead :=
  check_inbox_go handle ts (store.map (fun lead => pyLower lead.email))
    messages.reverse [] store

/-- C8: the reply-ingestion update sets `last_message` to the extracted
plain text, `last_sender` to `Client`, appends the timestamped entry to
the conversation history, moves status `Sent → Replied` and writes every
other status back unchanged; the remaining columns are untouched. -/
theorem c8_reply_update_fields :
    ∀ (handle : String → String) (ts reply_body : String) (lead : Lead),
      (update_lead_payload handle ts reply_body lead).last_message =
        convert_html_to_text handle reply_body ∧
      (update_lead_payload handle ts reply_body lead).last_sender = senderClient ∧
      (update_lead_payload handle ts reply_body lead).email_status =
        (if lead.email_status = statusSent then statusReplied else lead.email_status) ∧
      (lead.email_status ≠ statusSent →
        (update_lead_payload handle ts reply_body lead).email_status = lead.email_status) ∧
      (∃ p, (update_lead_payload handle ts reply_body lead).conversation_history =
        p ++ ("\n\nClient Reply (" ++ ts ++ "):\n" ++ convert_html_to_text handle reply_body)) ∧
      (update_lead_payload handle ts reply_body lead).email = lead.email ∧
      (update_lead_payload handle ts reply_body lead).sender_email = lead.sender_email ∧
      (update_lead_payload handle ts reply_body lead).response = lead.response := by
  intro handle ts reply_body lead
  unfold update_lead_payload
  refine ⟨rfl, rfl, rfl, fun hns => by simp [hns], ?_, rfl, rfl, rfl⟩
  by_cases hex : (if lead.conversation_history ≠ "" then
      convert_html_to_text handle lead.conversation_history
    else lead.conversation_history) ≠ ""
  · refine ⟨if lead.conversation_history ≠ "" then
        convert_html_to_text handle lead.conversation_history
      else lead.conversation_history, ?_⟩
    simp only [if_pos hex]
  · refine ⟨"", ?_⟩
    simp only [if_neg hex]
    rw [String.empty_append]

/-- Witness for C8 (for the hypothesis-bearing conjunct, discharged at a
lead whose status is `Failed`). -/
theorem c8_witness :
    (update_lead_payload id "ts" "hi" (mkLead statusFailed "")).email_status = statusFailed :=
  ((c8_reply_update_fields id "ts" "hi" (mkLead statusFailed "")).2.2.2.1 (by decide))

/-- The conversation entry `process_new_lead` builds for a first-touch
send (src/app.py lines 182-187): the "Email Sent" header with timestamp,
recipient, sender, and the generated body. -/
def new_lead_conversation_entry (ts name email sender_name sender_from email_content : String) :
    String :=
  "Email Sent (" ++ ts ++ ")\nTo: " ++ name ++ " (" ++ email ++ ")\nFrom: " ++
    sender_name ++ " (" ++ sender_from ++ ")\n\n" ++ email_content

/-- The sheet update `process_new_lead` applies after a first-touch send
(src/app.py lines 189-197), restricted to the modelled columns (the
subject/content columns it also writes are outside the modelled record):
status becomes `Sent`, the sender columns are set, and the
`CONVERSATION_HISTORY` cell is assigned the freshly built entry — the
previous cell value is not referenced by the update. -/
def process_new_lead_update (sender_from conversation_entry : String) (lead : Lead) : Lead :=
  { lead with
    email_status := statusSent,
    sender_email := sender_from,
    last_sender := senderAgency,
    conversation_history := conversation_entry }

/-- The `CONVERSATION_HISTORY` value written by `process_client_reply`
(src/app.py lines 285-289): previous history, then the client's message
and our response, each timestamped. -/
def client_reply_history (previous ts1 last_message ts2 response_email : String) : String :=
  previous ++ ("\n\nClient (" ++ ts1 ++ "):\n" ++ last_message ++
    "\n\nOur Response (" ++ ts2 ++ "):\n" ++ response_email)

/-- Concrete lead for the ingestion half of the C3 counterexample: its
history holds two entries separated by a blank line — the shape every
reply-path update produces. -/
def c3Lead : Lead :=
  { mkLead statusSent "" with email := "x@y.com", conversation_history := "A\n\nB" }

/-- Concrete lead for the first-touch half of the C3 counterexample: a
`New` lead whose history cell already holds text. -/
def c3NewLead : Lead :=
  { mkLead statusNew "" with email := "x@y.com", conversation_history := "A\n\nB" }

/-- Counterexample to C3 as stated, on both failing paths.  Inbound-reply
ingestion passes the previous history through the HTML-to-text cleanup
before appending, so it is not an unmodified prefix of the new value:
the blank line inside `"A\n\nB"` is dropped (even with the external
conversion `handle` the identity, the repository's own line cleanup
reformats it).  The first-touch update assigns the freshly built
"Email Sent" entry to the history cell, discarding the previous value
outright, so the previous history is not a prefix there either. -/
theorem c3_counterexample_history_rewritten :
    strIsPrefixOf "A\n\nB"
        (update_lead_payload id "2024-05-01 10:00:00" "hi" c3Lead).conversation_history =
      false ∧
    (update_lead_payload id "2024-05-01 10:00:00" "hi" c3Lead).conversation_history =
      "A\nB\n\nClient Reply (2024-05-01 10:00:00):\nhi" ∧
    strIsPrefixOf "A\n\nB"
        (process_new_lead_update "s@x.com"
          (new_lead_conversation_entry "2024-05-01 10:00" "Jane" "x@y.com"
            "Acme" "s@x.com" "Hello there")
          c3NewLead).conversation_history = false ∧
    (process_new_lead_update "s@x.com"
        (new_lead_conversation_entry "2024-05-01 10:00" "Jane" "x@y.com"
          "Acme" "s@x.com" "Hello there")
        c3NewLead).conversation_history =
      "Email Sent (2024-05-01 10:00)\nTo: Jane (x@y.com)\nFrom: Acme (s@x.com)\n\nHello there" := by
  refine ⟨rfl, rfl, rfl, rfl⟩

/-- C3 (amended): the reply-send path of the orchestrator preserves the
previous history as an unmodified prefix; the inbound-reply ingestion
preserves only its HTML-to-text-normalised form as a prefix (the
normalisation strips line ends and drops blank lines); and the
first-touch update overwrites the history cell with the freshly built
entry, discarding any previous value (exhibited by the counterexample).
The theorem proves the two prefix-preservation parts. -/
theorem c3_history_prefix_up_to_normalisation :
    (∀ previous ts1 last_message ts2 response_email : String,
      strIsPrefixOf previous
        (client_reply_history previous ts1 last_message ts2 response_email) = true) ∧
    (∀ (handle : String → String) (ts reply_body : String) (lead : Lead),
      strIsPrefixOf
        (if lead.conversation_history ≠ "" then
          convert_html_to_text handle lead.conversation_history
        else "")
        (update_lead_payload handle ts reply_body lead).conversation_history = true) := by
  refine ⟨?_, ?_⟩
  · intro previous ts1 last_message ts2 response_email
    unfold strIsPrefixOf client_reply_history
    rw [String.data_append, List.isPrefixOf_iff_prefix]
    exact List.prefix_append _ _
  · intro handle ts reply_body lead
    unfold strIsPrefixOf update_lead_payload
    by_cases hold : lead.conversation_history ≠ ""
    · simp only [if_pos hold]
      by_cases hconv : convert_html_to_text handle lead.conversation_history ≠ ""
      · simp only [if_pos hconv]
        rw [String.data_append, List.isPrefixOf_iff_prefix]
        exact List.prefix_append _ _
      · push_neg at hconv
        simp only [hconv]
        rw [List.isPrefixOf_iff_prefix]
        exact List.nil_prefix
    · simp only [if_neg hold]
      rw [List.isPrefixOf_iff_prefix]
      exact List.nil_prefix

/-- Concrete store and message for the C5 counterexample. -/
def c5Lead : Lead := { mkLead statusSent "" with email := "x@y.com" }

/-- An inbound reply from the lead of `c5Lead`, with a fixed thread key. -/
def c5Msg : InboundMessage := ⟨["x@y.com"], "tid-1", "x@y.com", "hello"⟩

/-- Counterexample to C5 as stated: the dedup set lives only for one
`_check_single_inbox` call, so a second invocation of the monitor on the
same message matches the lead again and appends a second
"Client Reply" entry to the conversation history — repeated invocation
is not idempotent for already-recorded replies. -/
theorem c5_counterexample_second_invocation_appends :
    check_single_inbox id "ts" [c5Lead] [c5Msg] =
      [{ c5Lead with
          last_message := "hello", last_sender := senderClient,
          email_status := statusReplied,
          conversation_history := "\n\nClient Reply (ts):\nhello" }] ∧
    check_single_inbox id "ts" (check_single_inbox id "ts" [c5Lead] [c5Msg]) [c5Msg] =
      [{ c5Lead with
          last_message := "hello", last_sender := senderClient,
          email_status := statusReplied,
          conversation_history :=
            "Client Reply (ts):\nhello\n\nClient Reply (ts):\nhello" }] := by
  constructor <;> rfl

/-- A message matching no tracked lead leaves the scan state unchanged. -/
lemma check_inbox_go_nomatch (handle : String → String) (ts : String)
    (lead_emails : List String) (m : InboundMessage) (rest : List InboundMessage)
    (processed : List String) (store : List Lead)
    (hmatch : m.participants.filter (fun p => lead_emails.contains (pyLower p)) = []) :
    check_inbox_go handle ts lead_emails (m :: rest) processed store =
      check_inbox_go handle ts lead_emails rest processed store := by
  simp only [check_inbox_go, hmatch]

/-- A matching message whose thread key is already in the per-cycle dedup
set is skipped without touching the store or the set. -/
lemma check_inbox_go_skip (handle : String → String) (ts : String)
    (lead_emails : List String) (m : InboundMessage) (rest : List InboundMessage)
    (processed : List String) (store : List Lead)
    (e : String) (es : List String)
    (hmatch : m.participants.filter (fun p => lead_emails.contains (pyLower p)) = e :: es)
    (hmem : processed.contains m.thread_id = true) :
    check_inbox_go handle ts lead_emails (m :: rest) processed store =
      check_inbox_go handle ts lead_emails rest processed store := by
  simp only [check_inbox_go, hmatch]
  rw [if_pos hmem]

/-- A matching message with a fresh thread key marks the key processed
and, when the thread's latest sender is the matched lead, applies the
store update. -/
lemma check_inbox_go_fresh (handle : String → String) (ts : String)
    (lead_emails : List String) (m : InboundMessage) (rest : List InboundMessage)
    (processed : List String) (store : List Lead)
    (e : String) (es : List String)
    (hmatch : m.participants.filter (fun p => lead_emails.contains (pyLower p)) = e :: es)
    (hmem : processed.contains m.thread_id = false) :
    check_inbox_go handle ts lead_emails (m :: rest) processed store =
      (if pyLower m.latest_from = pyLower e then
        check_inbox_go handle ts lead_emails rest (m.thread_id :: processed)
          (update_lead_in_sheet handle ts e m.latest_body store)
      else
        check_inbox_go handle ts lead_emails rest (m.thread_id :: processed) store) := by
  simp only [check_inbox_go, hmatch]
  rw [if_neg (by rw [hmem]; decide)]

/-- C5 (amended): within a single monitor cycle the per-cycle thread
dedup set makes ingestion of the same message (same thread key)
idempotent — the cycle that sees the message twice leaves the store
exactly as the cycle that sees it once. -/
theorem c5_same_cycle_duplicate_ignored :
    ∀ (handle : String → String) (ts : String) (store : List Lead) (m : InboundMessage),
      check_single_inbox handle ts store [m, m] = check_single_inbox handle ts store [m] := by
  intro handle ts store m
  unfold check_single_inbox
  have h2 : ([m, m] : List InboundMessage).reverse = [m, m] := rfl
  have h1 : ([m] : List InboundMessage).reverse = [m] := rfl
  rw [h2, h1]
  generalize store.map (fun lead => pyLower lead.email) = les
  have hmem0 : (([] : List String).contains m.thread_id) = false := rfl
  have hmem1 : ((m.thread_id :: ([] : List String)).contains m.thread_id) = true := by simp
  cases hmatch : m.participants.filter (fun p => les.contains (pyLower p)) with
  | nil =>
    rw [check_inbox_go_nomatch handle ts les m [m] [] store hmatch,
      check_inbox_go_nomatch handle ts les m [] [] store hmatch]
  | cons e es =>
    rw [check_inbox_go_fresh handle ts les m [m] [] store e es hmatch hmem0,
      check_inbox_go_fresh handle ts les m [] [] store e es hmatch hmem0]
    by_cases hfrom : pyLower m.latest_from = pyLower e
    · rw [if_pos hfrom, if_pos hfrom,
        check_inbox_go_skip handle ts les m [] [m.thread_id]
          (update_lead_in_sheet handle ts e m.latest_body store) e es hmatch hmem1]
    · rw [if_neg hfrom, if_neg hfrom,
        check_inbox_go_skip handle ts les m [] [m.thread_id] store e es hmatch hmem1]

end RippleReach
